import Mathlib

/-!
Verification of the Dreamsto-Song workflow (src/app.py).

The script is a Streamlit page with three outbound-call functions —
`load_google_sheet`, `generate_lyrics_with_claude`, `generate_song_with_suno` —
and a `main` orchestration that, on the Generate-Song click, extracts the
selected dream column, calls the text-generation API, and on success calls the
music-generation API, displaying the returned task identifier.

The embedding below is shallow: HTTP calls are represented by an oracle of type
`Except String resp` (`.error e` models a raised transport or body-parsing
exception with message `e`); Streamlit output is collected in explicit lists of
error / info / warning messages; the session dataframe is a list of rows of
optional cells (`none` is an empty or missing cell, which pandas parses to NaN
and `dropna` removes).
-/

namespace DreamsSong

/-! ### Data model -/

/-- A parsed spreadsheet table: rows of cells. An empty or missing cell is
`none` (pandas parses empty CSV cells as NaN). This embeds the DataFrame
returned by `pd.read_csv` in `load_google_sheet`. -/
abbrev Table := List (List (Option String))

/-- One column of the table: `df[dream_column]` — cell `j` of each row
(`none` when the row is too short). -/
def get_column (df : Table) (j : Nat) : List (Option String) :=
  df.map (fun row => row.getD j none)

/-- Embeds `df[dream_column].dropna().tolist()` (src/app.py line 294): keep
the non-empty cells of the column, in row order. -/
def dropna_tolist (col : List (Option String)) : List String :=
  col.filterMap id

/-! ### Sheet loader (src/app.py lines 68-85) -/

/-- Embeds `load_google_sheet`.  The Python code checks that the URL mentions
`docs.google.com/spreadsheets`, extracts the sheet id with
`sheet_url.split('/d/')[1]` (raising, hence caught, when `/d/` is absent), and
fetches the CSV with `pd.read_csv`; `fetch` is the oracle for that fetch-and-
parse step.  Result: the loaded table (or `none`) together with the list of
error messages shown via `st.error`. -/
def load_google_sheet (sheet_url : String) (fetch : Except String Table) :
    Option Table × List String :=
  if "docs.google.com/spreadsheets".data <:+: sheet_url.data then
    if "/d/".data <:+: sheet_url.data then
      match fetch with
      | .ok df => (some df, [])
      | .error e => (none, ["Error loading Google Sheet: " ++ e])
    else
      (none, ["Error loading Google Sheet: list index out of range"])
  else
    (none, ["Please provide a valid Google Sheets URL"])

/-- Embeds the load-button handler (src/app.py lines 262-268): the session
dataframe `st.session_state.dreams_df` is assigned only when
`load_google_sheet` returned a dataframe (`if df is not None:`); otherwise the
previous value is kept.  Returns the new session dataframe and the error
messages. -/
def load_click (prev : Option Table) (sheet_url : String)
    (fetch : Except String Table) : Option Table × List String :=
  let res := load_google_sheet sheet_url fetch
  (match res.1 with
   | some df => some df
   | none => prev,
   res.2)

/-! ### Lyrics generator (src/app.py lines 87-142) -/

structure ClaudeMessage where
  role : String
  content : String
deriving DecidableEq

/-- The JSON body sent to the text-generation endpoint (src/app.py
lines 115-124). -/
structure ClaudeRequest where
  model : String
  max_tokens : Nat
  messages : List ClaudeMessage
deriving DecidableEq

/-- Python `sep.join(l)` (src/app.py line 91). -/
def joinWith (sep : String) : List String → String
  | [] => ""
  | [s] => s
  | s :: rest => s ++ sep ++ joinWith sep rest

/-- Embeds `"\n".join([f"- {dream}" for dream in dreams_list])`
(src/app.py line 91). -/
def dreams_text (dreams_list : List String) : String :=
  joinWith "\n" (dreams_list.map (fun dream => "- " ++ dream))

/-- The fixed template text before `{dreams_text}` in the prompt f-string
(src/app.py lines 93-97). -/
def prompt_head : String :=
  "You are a creative songwriter tasked with creating beautiful, inspiring song lyrics about Singapore\x27s river and people\x27s dreams connected to it.\n\nHere are the dreams and wishes from various people about Singapore\x27s river:\n\n"

/-- The fixed template text after `{dreams_text}` in the prompt f-string
(src/app.py lines 99-107). -/
def prompt_tail : String :=
  "\n\nPlease create original 2-minute song lyrics that:\n1. Weave together the essence and themes from these dreams\n2. Celebrate Singapore\x27s river and its meaning to people\n3. Are uplifting and inspiring\n4. Have a clear verse-chorus structure suitable for singing\n5. Capture the multicultural spirit of Singapore\n6. Include imagery of water, hopes, and community\n\nThe lyrics should be completely original and suitable for a 2-minute song. Please format with clear verse and chorus sections."

/-- The full prompt f-string (src/app.py lines 93-107). -/
def claude_prompt (dreams_list : List String) : String :=
  prompt_head ++ dreams_text dreams_list ++ prompt_tail

/-- The request body `data` built in `generate_lyrics_with_claude`
(src/app.py lines 115-124). -/
def claude_request_data (dreams_list : List String) : ClaudeRequest :=
  { model := "claude-3-5-sonnet-20241022"
    max_tokens := 1000
    messages := [{ role := "user", content := claude_prompt dreams_list }] }

/-- Model of the parsed text-generation HTTP response.  `content_texts` holds
the list of text blocks `result['content'][i]['text']` when the JSON body has
that shape; `none` models a body whose parsing or indexing raises (the
exception is caught at src/app.py line 140).  `text` is the raw body text used
in the non-200 error message. -/
structure ClaudeResp where
  status_code : Nat
  content_texts : Option (List String)
  text : String
deriving DecidableEq

/-- Embeds `generate_lyrics_with_claude` (src/app.py lines 126-142), after the
request body has been built: on HTTP 200 return
`result['content'][0]['text']`; on another status or a raised exception show
an error and return `None`.  Result: the lyrics (or `none`) and the error
messages shown via `st.error`. -/
def generate_lyrics_with_claude (dreams_list : List String) (api_key : String)
    (resp : Except String ClaudeResp) : Option String × List String :=
  match resp with
  | .error e => (none, ["Error calling Claude API: " ++ e])
  | .ok r =>
    if r.status_code = 200 then
      match r.content_texts with
      | some (t :: _) => (some t, [])
      | _ => (none, ["Error calling Claude API: malformed response body"])
    else
      (none, ["Claude API Error: " ++ toString r.status_code ++ " - " ++ r.text])

/-! ### Song requester (src/app.py lines 144-187) -/

/-- The JSON body sent to the music-generation endpoint (src/app.py
lines 159-168). -/
structure SunoPayload where
  prompt : String
  style : String
  title : String
  customMode : Bool
  instrumental : Bool
  model : String
  negativeTags : String
  callBackUrl : String
deriving DecidableEq

/-- The placeholder used when no callback URL is supplied (src/app.py
line 157). -/
def temp_callback : String := "https://temp-callback-url.example.com"

/-- Embeds the payload assembly of `generate_song_with_suno` (src/app.py
lines 155-168): `callback_endpoint = callback_url if callback_url else ...`
(Python falsiness: `None` and the empty string both select the placeholder),
then the `data` dict with the lyrics as prompt, the genre as style, custom
mode on, instrumental off, model `V4` and fixed negative tags. -/
def suno_request_data (lyrics title genre : String) (callback_url : Option String) :
    SunoPayload :=
  let callback_endpoint :=
    match callback_url with
    | some s => if s = "" then temp_callback else s
    | none => temp_callback
  { prompt := lyrics
    style := genre
    title := title
    customMode := true
    instrumental := false
    model := "V4"
    negativeTags := "Heavy Metal, Aggressive"
    callBackUrl := callback_endpoint }

/-- The `data` object of the music-API response (`result['data']`), from which
`task_id` is read with `.get('task_id')`. -/
structure SunoData where
  task_id : Option String
deriving DecidableEq

/-- Model of the parsed music-generation HTTP response: the HTTP status, the
embedded `code` and `msg` fields (each `none` when absent, as `result.get`
returns `None`), the optional `data` object, and the raw body text used in the
non-200 error message. -/
structure SunoResp where
  status_code : Nat
  code : Option Nat
  msg : Option String
  data : Option SunoData
  text : String
deriving DecidableEq

/-- Embeds `generate_song_with_suno` (src/app.py lines 170-187), after the
payload has been built: on HTTP 200 with embedded `code == 200` return the
parsed response; on HTTP 200 with another embedded code show
`Suno API Error: {msg}` (default `'Unknown error'`) and return `None`; on a
non-200 HTTP status or a raised exception show an error and return `None`. -/
def generate_song_with_suno (lyrics api_key title genre : String)
    (callback_url : Option String) (resp : Except String SunoResp) :
    Option SunoResp × List String :=
  match resp with
  | .error e => (none, ["Error calling Suno API: " ++ e])
  | .ok r =>
    if r.status_code = 200 then
      if r.code = some 200 then
        (some r, [])
      else
        (none, ["Suno API Error: " ++ r.msg.getD "Unknown error"])
    else
      (none, ["Suno API HTTP Error: " ++ toString r.status_code ++ " - " ++ r.text])

/-! ### Generate-song click orchestration (src/app.py lines 287-403) -/

/-- An outbound request attempt made during one interaction. -/
inductive ApiCall where
  | claude (req : ClaudeRequest)
  | suno (req : SunoPayload)
deriving DecidableEq

/-- True exactly on music-generation calls. -/
def ApiCall.isSuno : ApiCall → Bool
  | .claude _ => false
  | .suno _ => true

/-- The inputs visible to `main` at the Generate-Song click: the selected
dream column of the session dataframe (when one is loaded), the two API keys,
and the song preferences.  `song_title` defaults to `Singapore River Dreams`
and `genre` to `pop` (the first selectbox option); `callback_url` is the
sidebar text field (empty by default). -/
structure GenerateInputs where
  dream_column : Option (List (Option String))
  claude_api_key : String
  suno_api_key : String
  song_title : String
  genre : String
  callback_url : String
deriving DecidableEq

/-- The oracles for the two outbound calls of one Generate-Song click. -/
structure Env where
  claude_resp : Except String ClaudeResp
  suno_resp : Except String SunoResp

/-- Everything `main` produces during one Generate-Song click: the ordered
trace of outbound request attempts, the values of the `lyrics` and
`suno_result` variables, the task identifier shown via `st.info`
(line 322), and the messages shown. -/
structure ClickOutcome where
  calls : List ApiCall := []
  lyrics_result : Option String := none
  suno_result : Option SunoResp := none
  displayed_task : Option String := none
  errors : List String := []
  infos : List String := []
  warnings : List String := []
deriving DecidableEq

/-- Embeds src/app.py lines 319-322: the task id is displayed only when the
response has a `data` object whose `task_id` is present and truthy
(non-empty). -/
def displayed_task_of (r : SunoResp) : Option String :=
  match r.data with
  | some d =>
    match d.task_id with
    | some t => if t = "" then none else some t
    | none => none
  | none => none

/-- Embeds the body of the Generate-Song click (src/app.py lines 292-397),
given the selected dream column: extract `dreams_list`; if non-empty, call the
text-generation API; if that yields truthy lyrics, call the music-generation
API; on success record the response and the displayed task id. -/
def song_generation_body (inp : GenerateInputs) (col : List (Option String))
    (env : Env) : ClickOutcome :=
  let dreams_list := dropna_tolist col
  if dreams_list = [] then
    { warnings := ["No dreams found in the selected column."] }
  else
    let lr := generate_lyrics_with_claude dreams_list inp.claude_api_key env.claude_resp
    let claude_calls := [ApiCall.claude (claude_request_data dreams_list)]
    match lr.1 with
    | none => { calls := claude_calls, errors := lr.2 }
    | some lyrics =>
      if lyrics = "" then
        { calls := claude_calls, lyrics_result := some lyrics, errors := lr.2 }
      else
        let sr := generate_song_with_suno lyrics inp.suno_api_key inp.song_title
          inp.genre (some inp.callback_url) env.suno_resp
        let all_calls := claude_calls ++
          [ApiCall.suno (suno_request_data lyrics inp.song_title inp.genre
            (some inp.callback_url))]
        match sr.1 with
        | none =>
          { calls := all_calls, lyrics_result := some lyrics, errors := lr.2 ++ sr.2 }
        | some r =>
          { calls := all_calls, lyrics_result := some lyrics, suno_result := some r
            displayed_task := displayed_task_of r, errors := lr.2 ++ sr.2 }

/-- Embeds the guards of src/app.py lines 287, 399 and 403: the generation
body runs only when a dataframe is loaded and both API keys are truthy
(non-empty); otherwise an informational message is shown. -/
def generate_click (inp : GenerateInputs) (env : Env) : ClickOutcome :=
  match inp.dream_column with
  | some col =>
    if inp.claude_api_key = "" ∨ inp.suno_api_key = "" then
      { infos := ["Please enter your API keys in the sidebar to start generating songs."] }
    else
      song_generation_body inp col env
  | none =>
    if inp.claude_api_key = "" ∨ inp.suno_api_key = "" then
      { infos := ["Please enter your API keys in the sidebar to start generating songs."] }
    else
      { infos := ["Please load dreams from Google Sheets first."] }

/-! ### Helper lemmas -/

/-- Any member of a list of strings occurs, character-wise, inside the
`joinWith`-join of the list. -/
theorem mem_data_infix_joinWith (sep : String) (l : List String) (s : String)
    (hmem : s ∈ l) : s.data <:+: (joinWith sep l).data := by
  induction l with
  | nil => cases hmem
  | cons x rest ih =>
    cases rest with
    | nil =>
      have hx : s = x := by
        rcases List.mem_cons.mp hmem with h | h
        · exact h
        · cases h
      subst hx
      exact List.infix_refl s.data
    | cons y t =>
      rcases List.mem_cons.mp hmem with h | h
      · subst h
        show s.data <:+: (s ++ sep ++ joinWith sep (y :: t)).data
        rw [String.data_append, String.data_append, List.append_assoc]
        exact List.IsPrefix.isInfix (List.prefix_append s.data _)
      · have hinner := ih h
        show s.data <:+: (x ++ sep ++ joinWith sep (y :: t)).data
        rw [String.data_append, String.data_append]
        refine List.IsInfix.trans hinner ?_
        exact List.IsSuffix.isInfix
          (List.suffix_append (x.data ++ sep.data) (joinWith sep (y :: t)).data)

/-- Every dream of the list appears in the full prompt, verbatim, prefixed by
the bullet `- `. -/
theorem bullet_in_prompt (dreams_list : List String) (d : String)
    (h : d ∈ dreams_list) :
    ("- " ++ d).data <:+: (claude_prompt dreams_list).data := by
  have h1 : ("- " ++ d) ∈ dreams_list.map (fun dream => "- " ++ dream) :=
    List.mem_map_of_mem (fun dream => "- " ++ dream) h
  have h2 := mem_data_infix_joinWith "\n"
    (dreams_list.map (fun dream => "- " ++ dream)) ("- " ++ d) h1
  have h3 : (dreams_text dreams_list).data <:+: (claude_prompt dreams_list).data := by
    show (dreams_text dreams_list).data <:+:
      (prompt_head ++ dreams_text dreams_list ++ prompt_tail).data
    rw [String.data_append, String.data_append]
    exact List.infix_append prompt_head.data (dreams_text dreams_list).data
      prompt_tail.data
  exact List.IsInfix.trans h2 h3

/-! ### Claim C5 -/

/-- Claim C5 counterexample: at a concrete input, the music-generation payload
built by the code has `instrumental = false` and its `prompt` field equal to
the generated lyrics; the code hard-codes `'instrumental': False` and never
sends a description, so the claimed instrumental mode (instrumental `true`,
prompt = description) is not reachable. -/
theorem instrumental_mode_refuted :
    (suno_request_data "Verse 1: by the river" "Singapore River Dreams" "pop"
      (some "")).instrumental = false ∧
    (suno_request_data "Verse 1: by the river" "Singapore River Dreams" "pop"
      (some "")).prompt = "Verse 1: by the river" :=
  ⟨rfl, rfl⟩

/-- Claim C5 (amended): there is no instrumental mode in the code; for every
input, the music-generation payload has `instrumental = false` and its
`prompt` field equals the generated lyrics. -/
theorem payload_never_instrumental (lyrics title genre : String)
    (cb : Option String) :
    (suno_request_data lyrics title genre cb).instrumental = false ∧
    (suno_request_data lyrics title genre cb).prompt = lyrics :=
  ⟨rfl, rfl⟩

/-! ### Claim C6 -/

/-- Claim C6 counterexample: with the callback field of the configuration left
empty (its default), the outgoing payload does not carry it verbatim — the
code substitutes the placeholder `https://temp-callback-url.example.com`.
Moreover the payload negative tags are a hard-coded constant, not a
configuration value. -/
theorem callback_verbatim_refuted :
    (suno_request_data "some lyrics" "Title" "folk" (some "")).callBackUrl ≠ "" ∧
    (suno_request_data "some lyrics" "Title" "folk" (some "")).callBackUrl =
      temp_callback :=
  ⟨by decide, rfl⟩

/-- Claim C6 (amended): the payload style string equals the user-supplied
genre verbatim (there are no style additions in the code); the negative tags
are the fixed constant `Heavy Metal, Aggressive` (not configurable); the
custom-mode flag is always set; and the callback URL passes through verbatim
exactly when it is non-empty, an empty or absent one being replaced by the
placeholder. -/
theorem payload_assembly_facts (lyrics title genre : String)
    (cb : Option String) (s : String) (hs : s ≠ "") :
    (suno_request_data lyrics title genre cb).style = genre ∧
    (suno_request_data lyrics title genre cb).negativeTags =
      "Heavy Metal, Aggressive" ∧
    (suno_request_data lyrics title genre cb).customMode = true ∧
    (suno_request_data lyrics title genre (some s)).callBackUrl = s := by
  refine ⟨rfl, rfl, rfl, ?_⟩
  simp [suno_request_data, hs]

/-- Witness for `payload_assembly_facts` at a concrete configuration. -/
theorem payload_assembly_facts_witness :
    (suno_request_data "la" "Title" "pop"
      (some "https://cb.example.com/hook")).callBackUrl =
      "https://cb.example.com/hook" :=
  (payload_assembly_facts "la" "Title" "pop" (some "https://cb.example.com/hook")
    "https://cb.example.com/hook" (by decide)).2.2.2

/-! ### Claim C7 -/

/-- Claim C7: the extracted dream sequence has exactly one entry per non-empty
cell of the designated column, and it is a sub-sequence of the column in the
original row order (rows with empty or missing cells dropped, all others kept
in order). -/
theorem extraction_length_order (col : List (Option String)) :
    (dropna_tolist col).length = col.countP (fun c => c.isSome) ∧
    ((dropna_tolist col).map some).Sublist col := by
  constructor
  · induction col with
    | nil => rfl
    | cons c rest ih =>
      cases c with
      | none => simpa [dropna_tolist] using ih
      | some a => simpa [dropna_tolist] using ih
  · induction col with
    | nil => simp [dropna_tolist]
    | cons c rest ih =>
      cases c with
      | none =>
        simp only [dropna_tolist, List.filterMap_cons_none, id]
        exact List.Sublist.cons none ih
      | some a =>
        simp only [dropna_tolist, List.filterMap_cons_some, id, List.map_cons]
        exact List.Sublist.cons₂ (some a) ih

/-- Witness for `extraction_length_order` at a concrete column. -/
theorem extraction_length_order_witness :
    (dropna_tolist [some "a", none, some "b"]).length =
      ([some "a", none, some "b"].countP (fun c => c.isSome)) ∧
    ((dropna_tolist [some "a", none, some "b"]).map some).Sublist
      [some "a", none, some "b"] :=
  extraction_length_order [some "a", none, some "b"]

/-! ### Claim C10 -/

/-- Claim C10: each of the three outbound-call functions catches every
transport or parse exception (`.error e` outcome), surfaces an error message,
and returns no result; no exception propagates (the embedded functions are
total and return an Option-style result in every case). -/
theorem outbound_calls_catch_exceptions (e url api_key lyrics title genre : String)
    (dreams_list : List String) (cb : Option String) :
    ((load_google_sheet url (.error e)).1 = none ∧
      (load_google_sheet url (.error e)).2 ≠ []) ∧
    generate_lyrics_with_claude dreams_list api_key (.error e) =
      (none, ["Error calling Claude API: " ++ e]) ∧
    generate_song_with_suno lyrics api_key title genre cb (.error e) =
      (none, ["Error calling Suno API: " ++ e]) := by
  refine ⟨?_, rfl, rfl⟩
  unfold load_google_sheet
  split
  · split
    · exact ⟨rfl, by simp⟩
    · exact ⟨rfl, by simp⟩
  · exact ⟨rfl, by simp⟩

/-- Witness for `outbound_calls_catch_exceptions` at concrete inputs. -/
theorem outbound_calls_catch_exceptions_witness :
    ((load_google_sheet "https://docs.google.com/spreadsheets/d/abc/edit"
        (.error "connection refused")).1 = none ∧
      (load_google_sheet "https://docs.google.com/spreadsheets/d/abc/edit"
        (.error "connection refused")).2 ≠ []) ∧
    generate_lyrics_with_claude ["a dream"] "ck" (.error "connection refused") =
      (none, ["Error calling Claude API: " ++ "connection refused"]) ∧
    generate_song_with_suno "la" "sk" "Title" "pop" none
        (.error "connection refused") =
      (none, ["Error calling Suno API: " ++ "connection refused"]) :=
  outbound_calls_catch_exceptions "connection refused"
    "https://docs.google.com/spreadsheets/d/abc/edit" "ck" "la" "Title" "pop"
    ["a dream"] none

/-! ### Claim C2 -/

/-- A loaded dream sequence with twenty-one entries, used to show that the
code does not truncate the sequence before prompting. -/
def many_dreams : List String :=
  ["dream 01", "dream 02", "dream 03", "dream 04", "dream 05",
   "dream 06", "dream 07", "dream 08", "dream 09", "dream 10",
   "dream 11", "dream 12", "dream 13", "dream 14", "dream 15",
   "dream 16", "dream 17", "dream 18", "dream 19", "dream 20",
   "the twenty-first dream"]

/-- Claim C2 counterexample: with twenty-one loaded entries, the twenty-first
entry also appears (bulleted, verbatim) in the prompt sent upstream — the code
never truncates `dreams_list` to its first 20 entries, so the prompt does not
contain `at most the first 20 entries`. -/
theorem prompt_truncation_refuted :
    ("- " ++ "the twenty-first dream").data <:+:
      (claude_prompt many_dreams).data :=
  bullet_in_prompt many_dreams "the twenty-first dream" (by decide)

/-- Claim C2 (amended): the prompt contains every entry of the full loaded
dream sequence (the sequence is not truncated to 20), each appearing verbatim
and prefixed as a bulleted line `- ` plus the entry text. -/
theorem prompt_contains_every_dream (dreams_list : List String) (d : String)
    (h : d ∈ dreams_list) :
    ("- " ++ d).data <:+: (claude_prompt dreams_list).data :=
  bullet_in_prompt dreams_list d h

/-- Witness for `prompt_contains_every_dream` at a concrete sequence. -/
theorem prompt_contains_every_dream_witness :
    ("- " ++ "a floating garden").data <:+:
      (claude_prompt ["clean river water", "a floating garden"]).data :=
  prompt_contains_every_dream ["clean river water", "a floating garden"]
    "a floating garden" (by decide)

/-! ### Claim C8 -/

/-- Whenever `load_google_sheet` returns no table, it has shown an error
message. -/
theorem load_google_sheet_failure_message (url : String)
    (fetch : Except String Table) (h : (load_google_sheet url fetch).1 = none) :
    (load_google_sheet url fetch).2 ≠ [] := by
  cases fetch with
  | error e =>
    unfold load_google_sheet
    split_ifs <;> simp
  | ok df =>
    unfold load_google_sheet at h ⊢
    split_ifs at h ⊢ with h1 h2
    · decide
    · decide

/-- Claim C8: if loading the sheet fails for any reason (invalid URL, URL
without a sheet id, fetch or parse failure), the loader returns no table, a
message is reported, and the previously loaded session dataframe is left
unchanged. -/
theorem load_failure_preserves_state (prev : Option Table) (url : String)
    (fetch : Except String Table)
    (h : (load_google_sheet url fetch).1 = none) :
    (load_click prev url fetch).1 = prev ∧
    (load_click prev url fetch).2 ≠ [] := by
  constructor
  · show (match (load_google_sheet url fetch).1 with
      | some df => some df
      | none => prev) = prev
    rw [h]
  · show (load_google_sheet url fetch).2 ≠ []
    exact load_google_sheet_failure_message url fetch h

/-- Witness for `load_failure_preserves_state`: an invalid URL leaves the
previously loaded table in place. -/
theorem load_failure_preserves_state_witness :
    (load_click (some [[some "old"]]) "https://example.com/not-a-sheet"
      (.error "unreachable")).1 = some [[some "old"]] ∧
    (load_click (some [[some "old"]]) "https://example.com/not-a-sheet"
      (.error "unreachable")).2 ≠ [] :=
  load_failure_preserves_state (some [[some "old"]])
    "https://example.com/not-a-sheet" (.error "unreachable") (by decide)

/-! ### Claim C1 -/

/-- On HTTP 200 with an embedded status other than 200, the song requester
shows the embedded message and returns `None`. -/
theorem generate_song_with_suno_embedded_fail (lyrics api_key title genre : String)
    (cb : Option String) (r : SunoResp) (m : String)
    (hs : r.status_code = 200) (hc : ¬ r.code = some 200) (hm : r.msg = some m) :
    generate_song_with_suno lyrics api_key title genre cb (.ok r) =
      (none, ["Suno API Error: " ++ m]) := by
  simp [generate_song_with_suno, hs, hc, hm]

/-- If every music-API attempt in this interaction yields no result, no task
identifier is displayed. -/
theorem displayed_task_none_of_suno_fail (inp : GenerateInputs) (env : Env)
    (hfail : ∀ lyrics api_key title genre cb,
      (generate_song_with_suno lyrics api_key title genre cb env.suno_resp).1 = none) :
    (generate_click inp env).displayed_task = none := by
  rcases hcol : inp.dream_column with _ | col
  · simp only [generate_click, hcol]
    split <;> rfl
  · simp only [generate_click, hcol]
    split
    · rfl
    · simp only [song_generation_body]
      split
      · rfl
      · rcases hl : (generate_lyrics_with_claude (dropna_tolist col)
            inp.claude_api_key env.claude_resp).1 with _ | lyrics
        · simp only [hl]
        · simp only [hl]
          split
          · rfl
          · rw [hfail lyrics inp.suno_api_key inp.song_title inp.genre
              (some inp.callback_url)]

/-- Claim C1: if the music-generation API responds with HTTP 200 but the
embedded `code` field is not 200, `generate_song_with_suno` reports the
embedded `msg` as the failure message and returns no result, and the click
handler surfaces no task identifier. -/
theorem suno_embedded_error_reported (lyrics api_key title genre : String)
    (cb : Option String) (inp : GenerateInputs) (env : Env) (r : SunoResp)
    (m : String) (hr : env.suno_resp = .ok r) (hs : r.status_code = 200)
    (hc : ¬ r.code = some 200) (hm : r.msg = some m) :
    generate_song_with_suno lyrics api_key title genre cb env.suno_resp =
      (none, ["Suno API Error: " ++ m]) ∧
    (generate_click inp env).displayed_task = none := by
  constructor
  · rw [hr]
    exact generate_song_with_suno_embedded_fail lyrics api_key title genre cb r m
      hs hc hm
  · refine displayed_task_none_of_suno_fail inp env ?_
    intro l k t g c
    rw [hr, generate_song_with_suno_embedded_fail l k t g c r m hs hc hm]

/-- The environment of the witness for claim C1: the music API answers
HTTP 200 with an embedded error code. -/
def c1_env : Env :=
  { claude_resp := .ok { status_code := 200, content_texts := some ["la la"], text := "" }
    suno_resp := .ok { status_code := 200, code := some 455, msg := some "insufficient credits"
                       data := none, text := "" } }

/-- The inputs of the witness for claim C1. -/
def c1_inputs : GenerateInputs :=
  { dream_column := some [some "a dream"], claude_api_key := "ck", suno_api_key := "sk"
    song_title := "Singapore River Dreams", genre := "pop", callback_url := "" }

/-- Witness for `suno_embedded_error_reported` at a concrete response. -/
theorem suno_embedded_error_reported_witness :
    generate_song_with_suno "la la" "sk" "Singapore River Dreams" "pop" (some "")
        c1_env.suno_resp =
      (none, ["Suno API Error: " ++ "insufficient credits"]) ∧
    (generate_click c1_inputs c1_env).displayed_task = none :=
  suno_embedded_error_reported "la la" "sk" "Singapore River Dreams" "pop"
    (some "") c1_inputs c1_env
    { status_code := 200, code := some 455, msg := some "insufficient credits"
      data := none, text := "" }
    "insufficient credits" rfl rfl (by decide) rfl

/-! ### Claim C4 -/

/-- On a transport failure or a non-200 HTTP status, the lyrics generator
returns no lyrics and shows an error. -/
theorem generate_lyrics_with_claude_fail (dreams_list : List String)
    (api_key : String) (resp : Except String ClaudeResp)
    (hfail : (∃ e, resp = .error e) ∨
      ∃ r, resp = .ok r ∧ r.status_code ≠ 200) :
    (generate_lyrics_with_claude dreams_list api_key resp).1 = none ∧
    (generate_lyrics_with_claude dreams_list api_key resp).2 ≠ [] := by
  rcases hfail with ⟨e, rfl⟩ | ⟨r, rfl, hr⟩
  · exact ⟨rfl, by simp [generate_lyrics_with_claude]⟩
  · constructor
    · simp [generate_lyrics_with_claude, hr]
    · simp [generate_lyrics_with_claude, hr]

/-- Claim C4: if the text-generation call fails with a transport error or a
non-success HTTP status, an error is reported, no lyrics are returned, and
the music-generation API is never called in that interaction: the click trace
is exactly the one text-generation attempt and contains zero song-request
calls. -/
theorem claude_failure_halts_pipeline (inp : GenerateInputs) (env : Env)
    (col : List (Option String)) (hcol : inp.dream_column = some col)
    (hck : inp.claude_api_key ≠ "") (hsk : inp.suno_api_key ≠ "")
    (hne : dropna_tolist col ≠ [])
    (hfail : (∃ e, env.claude_resp = .error e) ∨
      ∃ r, env.claude_resp = .ok r ∧ r.status_code ≠ 200) :
    (generate_lyrics_with_claude (dropna_tolist col) inp.claude_api_key
      env.claude_resp).1 = none ∧
    (generate_click inp env).errors ≠ [] ∧
    (generate_click inp env).lyrics_result = none ∧
    (generate_click inp env).calls =
      [ApiCall.claude (claude_request_data (dropna_tolist col))] ∧
    ((generate_click inp env).calls.countP ApiCall.isSuno) = 0 := by
  obtain ⟨hnone, herr⟩ :=
    generate_lyrics_with_claude_fail (dropna_tolist col) inp.claude_api_key
      env.claude_resp hfail
  have hclick : generate_click inp env =
      { calls := [ApiCall.claude (claude_request_data (dropna_tolist col))]
        errors := (generate_lyrics_with_claude (dropna_tolist col)
          inp.claude_api_key env.claude_resp).2 } := by
    simp only [generate_click, hcol]
    rw [if_neg (by simp [hck, hsk])]
    simp only [song_generation_body]
    rw [if_neg hne, hnone]
  refine ⟨hnone, ?_, ?_, ?_, ?_⟩
  · rw [hclick]
    exact herr
  · rw [hclick]
  · rw [hclick]
  · rw [hclick]
    simp [List.countP_cons, ApiCall.isSuno]

/-- The environment of the witness for claim C4: the text API answers a
non-200 HTTP status. -/
def c4_env : Env :=
  { claude_resp := .ok { status_code := 401, content_texts := none, text := "unauthorized" }
    suno_resp := .ok { status_code := 200, code := some 200
                       data := some { task_id := some "t1" }, msg := none, text := "" } }

/-- The inputs of the witness for claim C4. -/
def c4_inputs : GenerateInputs :=
  { dream_column := some [some "a dream"], claude_api_key := "ck", suno_api_key := "sk"
    song_title := "Singapore River Dreams", genre := "pop", callback_url := "" }

/-- Witness for `claude_failure_halts_pipeline` at a concrete response. -/
theorem claude_failure_halts_pipeline_witness :
    (generate_lyrics_with_claude (dropna_tolist [some "a dream"]) "ck"
      c4_env.claude_resp).1 = none ∧
    (generate_click c4_inputs c4_env).errors ≠ [] ∧
    (generate_click c4_inputs c4_env).lyrics_result = none ∧
    (generate_click c4_inputs c4_env).calls =
      [ApiCall.claude (claude_request_data (dropna_tolist [some "a dream"]))] ∧
    ((generate_click c4_inputs c4_env).calls.countP ApiCall.isSuno) = 0 := by
  have h := claude_failure_halts_pipeline c4_inputs c4_env [some "a dream"] rfl
    (by decide) (by decide) (by decide)
    (Or.inr ⟨{ status_code := 401, content_texts := none, text := "unauthorized" },
      rfl, by decide⟩)
  exact h

/-! ### Claim C3 -/

/-- The two dream entries of the end-to-end scenario. -/
def c3_dreams : List String := ["clean river water", "a floating garden"]

/-- The inputs of the end-to-end scenario: both entries loaded, credentials
present, and the default song preferences (title `Singapore River Dreams`,
genre `pop` — the first selectbox option — and an empty callback field). -/
def c3_inputs (ck sk : String) : GenerateInputs :=
  { dream_column := some [some "clean river water", some "a floating garden"]
    claude_api_key := ck
    suno_api_key := sk
    song_title := "Singapore River Dreams"
    genre := "pop"
    callback_url := "" }

/-- Claim C3: in the default (non-instrumental) flow with dreams loaded and
both credentials present, one Generate-Song click issues exactly one
text-generation request — whose prompt contains both entries — then exactly
one music-generation request whose `customMode` field is true and whose
`instrumental` field is false, and on a success response the returned task
identifier is displayed. -/
theorem end_to_end_default_flow (ck sk : String) (env : Env)
    (hck : ck ≠ "") (hsk : sk ≠ "") (cr : ClaudeResp) (lyrics : String)
    (rest : List String) (sr : SunoResp) (tid : String)
    (hcr : env.claude_resp = .ok cr) (hc1 : cr.status_code = 200)
    (hc2 : cr.content_texts = some (lyrics :: rest)) (hl : lyrics ≠ "")
    (hsr : env.suno_resp = .ok sr) (hs1 : sr.status_code = 200)
    (hs2 : sr.code = some 200) (hs3 : sr.data = some { task_id := some tid })
    (ht : tid ≠ "") :
    (generate_click (c3_inputs ck sk) env).calls =
      [ApiCall.claude (claude_request_data c3_dreams),
       ApiCall.suno (suno_request_data lyrics "Singapore River Dreams" "pop"
         (some ""))] ∧
    ("- " ++ "clean river water").data <:+: (claude_prompt c3_dreams).data ∧
    ("- " ++ "a floating garden").data <:+: (claude_prompt c3_dreams).data ∧
    (suno_request_data lyrics "Singapore River Dreams" "pop"
      (some "")).customMode = true ∧
    (suno_request_data lyrics "Singapore River Dreams" "pop"
      (some "")).instrumental = false ∧
    (generate_click (c3_inputs ck sk) env).displayed_task = some tid := by
  have hdrop : dropna_tolist [some "clean river water", some "a floating garden"] =
      c3_dreams := rfl
  have hlyr : generate_lyrics_with_claude c3_dreams ck env.claude_resp =
      (some lyrics, []) := by
    rw [hcr]
    simp [generate_lyrics_with_claude, hc1, hc2]
  have hsuno : generate_song_with_suno lyrics sk "Singapore River Dreams" "pop"
      (some "") env.suno_resp = (some sr, []) := by
    rw [hsr]
    simp [generate_song_with_suno, hs1, hs2]
  have hclick : generate_click (c3_inputs ck sk) env =
      { calls := [ApiCall.claude (claude_request_data c3_dreams),
          ApiCall.suno (suno_request_data lyrics "Singapore River Dreams" "pop"
            (some ""))]
        lyrics_result := some lyrics
        suno_result := some sr
        displayed_task := some tid
        errors := [] } := by
    simp only [generate_click, c3_inputs]
    rw [if_neg (by simp [hck, hsk])]
    simp only [song_generation_body, hdrop]
    rw [if_neg (by simp [c3_dreams]), hlyr]
    simp only [if_neg hl]
    rw [hsuno]
    simp [displayed_task_of, hs3, ht]
  refine ⟨?_, ?_, ?_, rfl, rfl, ?_⟩
  · rw [hclick]
  · exact bullet_in_prompt c3_dreams "clean river water" (by decide)
  · exact bullet_in_prompt c3_dreams "a floating garden" (by decide)
  · rw [hclick]

/-- The environment of the witness for claim C3: both calls succeed and the
music API returns task id `task-123`. -/
def c3_env : Env :=
  { claude_resp := .ok { status_code := 200
                         content_texts := some ["river lyrics"], text := "" }
    suno_resp := .ok { status_code := 200, code := some 200, msg := none
                       data := some { task_id := some "task-123" }, text := "" } }

/-- Witness for `end_to_end_default_flow` at a concrete environment. -/
theorem end_to_end_default_flow_witness :
    (generate_click (c3_inputs "ck" "sk") c3_env).calls =
      [ApiCall.claude (claude_request_data c3_dreams),
       ApiCall.suno (suno_request_data "river lyrics" "Singapore River Dreams"
         "pop" (some ""))] ∧
    ("- " ++ "clean river water").data <:+: (claude_prompt c3_dreams).data ∧
    ("- " ++ "a floating garden").data <:+: (claude_prompt c3_dreams).data ∧
    (suno_request_data "river lyrics" "Singapore River Dreams" "pop"
      (some "")).customMode = true ∧
    (suno_request_data "river lyrics" "Singapore River Dreams" "pop"
      (some "")).instrumental = false ∧
    (generate_click (c3_inputs "ck" "sk") c3_env).displayed_task =
      some "task-123" :=
  end_to_end_default_flow "ck" "sk" c3_env (by decide) (by decide)
    { status_code := 200, content_texts := some ["river lyrics"], text := "" }
    "river lyrics" []
    { status_code := 200, code := some 200, msg := none
      data := some { task_id := some "task-123" }, text := "" }
    "task-123" rfl rfl rfl (by decide) rfl rfl rfl rfl (by decide)

/-! ### Claim C9 -/

/-- Claim C9: workflow ordering invariant of one interaction — a
text-generation call appears in the trace only when a dream column is loaded
and both credentials are present, and a music-generation call appears in the
trace only when the interaction produced non-empty lyrics. -/
theorem workflow_ordering_invariant (inp : GenerateInputs) (env : Env) :
    ((∃ req, ApiCall.claude req ∈ (generate_click inp env).calls) →
      inp.dream_column ≠ none ∧ inp.claude_api_key ≠ "" ∧
        inp.suno_api_key ≠ "") ∧
    ((∃ p, ApiCall.suno p ∈ (generate_click inp env).calls) →
      (generate_click inp env).lyrics_result ≠ none ∧
        (generate_click inp env).lyrics_result ≠ some "") := by
  rcases hcol : inp.dream_column with _ | col
  · constructor
    · rintro ⟨req, hmem⟩
      simp only [generate_click, hcol] at hmem
      split at hmem <;> simp at hmem
    · rintro ⟨p, hmem⟩
      simp only [generate_click, hcol] at hmem
      split at hmem <;> simp at hmem
  · by_cases hkeys : inp.claude_api_key = "" ∨ inp.suno_api_key = ""
    · constructor
      · rintro ⟨req, hmem⟩
        simp only [generate_click, hcol] at hmem
        rw [if_pos hkeys] at hmem
        simp at hmem
      · rintro ⟨p, hmem⟩
        simp only [generate_click, hcol] at hmem
        rw [if_pos hkeys] at hmem
        simp at hmem
    · push_neg at hkeys
      obtain ⟨hck, hsk⟩ := hkeys
      constructor
      · rintro ⟨req, hmem⟩
        exact ⟨by simp [hcol], hck, hsk⟩
      · rintro ⟨p, hmem⟩
        simp only [generate_click, hcol] at hmem ⊢
        rw [if_neg (by simp [hck, hsk])] at hmem ⊢
        simp only [song_generation_body] at hmem ⊢
        by_cases hne : dropna_tolist col = []
        · rw [if_pos hne] at hmem
          simp at hmem
        · rw [if_neg hne] at hmem ⊢
          rcases hl : (generate_lyrics_with_claude (dropna_tolist col)
              inp.claude_api_key env.claude_resp).1 with _ | lyrics
          · rw [hl] at hmem
            simp at hmem
          · rw [hl] at hmem
            dsimp only at hmem ⊢
            by_cases hemp : lyrics = ""
            · rw [if_pos hemp] at hmem
              simp at hmem
            · rw [if_neg hemp] at hmem ⊢
              rcases hs : (generate_song_with_suno lyrics inp.suno_api_key
                  inp.song_title inp.genre (some inp.callback_url)
                  env.suno_resp).1 with _ | r
              · exact ⟨by simp, by simp [hemp]⟩
              · exact ⟨by simp, by simp [hemp]⟩

/-- The environment of the witness for claim C9: both calls succeed. -/
def c9_env : Env :=
  { claude_resp := .ok { status_code := 200
                         content_texts := some ["la la"], text := "" }
    suno_resp := .ok { status_code := 200, code := some 200, msg := none
                       data := some { task_id := some "t9" }, text := "" } }

/-- The inputs of the witness for claim C9. -/
def c9_inputs : GenerateInputs :=
  { dream_column := some [some "a dream"], claude_api_key := "ck"
    suno_api_key := "sk", song_title := "T", genre := "pop"
    callback_url := "" }

set_option maxRecDepth 8192 in
/-- Witness for `workflow_ordering_invariant`: in a run where both calls
happen, both invariant conclusions are obtained from concrete trace members. -/
theorem workflow_ordering_invariant_witness :
    (c9_inputs.dream_column ≠ none ∧ c9_inputs.claude_api_key ≠ "" ∧
      c9_inputs.suno_api_key ≠ "") ∧
    ((generate_click c9_inputs c9_env).lyrics_result ≠ none ∧
      (generate_click c9_inputs c9_env).lyrics_result ≠ some "") :=
  ⟨(workflow_ordering_invariant c9_inputs c9_env).1
      ⟨claude_request_data ["a dream"], by decide⟩,
    (workflow_ordering_invariant c9_inputs c9_env).2
      ⟨suno_request_data "la la" "T" "pop" (some ""), by decide⟩⟩

end DreamsSong
